import Mathlib

/-!
Shallow embedding of the telegram-openai-bot webhook service
(src/functions/bot/src/index.ts, services/telegramBot.ts,
services/telegramSender.ts).  Handlers are modelled as pure functions from
an explicit environment (the outcomes of the awaited external calls: file
metadata lookup, download, resize, OpenAI calls, outbound sends, and the
clock) to the sequence of outbound effects the handler issues, plus where
relevant the temporary files still on disk when the handler returns.
-/

namespace Bot

/-- Outcome of one awaited external call: the value it resolved with, or the
message of the error it threw (rejected with). -/
inductive Res (α : Type) where
  | ok (a : α)
  | err (msg : String)
deriving Repr, DecidableEq

/-- One entry of the Telegram `photo` array (telegramBot.ts lines 15-17). -/
structure PhotoSize where
  file_id : String
deriving Repr, DecidableEq

/-- The `message` object of the inbound webhook body (telegramBot.ts lines 10-19). -/
structure ChatMessage where
  chatId : Int
  text : Option String := none
  photo : Option (List PhotoSize) := none
  caption : Option String := none
deriving Repr, DecidableEq

/-- The inbound webhook body (`TelegramMessageBody`, telegramBot.ts lines 9-20). -/
structure TelegramMessageBody where
  message : Option ChatMessage := none
deriving Repr, DecidableEq

/-- JS truthiness of an optional string field: `text && ...` is taken when the
field is present and not the empty string. -/
def truthyStr : Option String → Bool
  | none => false
  | some s => !(s == "")

/-- Character-list prefix test. -/
def isPrefChars : List Char → List Char → Bool
  | [], _ => true
  | _ :: _, [] => false
  | a :: as, b :: bs => a == b && isPrefChars as bs

/-- JS `s.startsWith(pre)` over the character sequence. -/
def jsStartsWith (s pre : String) : Bool := isPrefChars pre.toList s.toList

/-- JS `s.substring(n)` (the prefixes dropped here are 7 ASCII characters, so
code-unit and character counting agree). -/
def jsSubstring (s : String) (n : Nat) : String := String.mk (s.toList.drop n)

/-- JS `s.trim()`: strip leading and trailing whitespace (the inputs at issue
use ASCII whitespace, where JS and `Char.isWhitespace` agree). -/
def jsTrim (s : String) : String :=
  String.mk (((s.toList.dropWhile Char.isWhitespace).reverse.dropWhile Char.isWhitespace).reverse)

/-- JS truthiness of the optional photo array: any array object is truthy. -/
def truthyArr : Option (List PhotoSize) → Bool
  | none => false
  | some _ => true

/-- One outbound effect of a handler: an outbound Telegram call, an OpenAI
call, a download, a log line, or a progress-indicator lifecycle event. -/
inductive Eff where
  | sendMessage (chatId : Int) (text : String)
  | sendPhotoUrl (chatId : Int) (url : String) (caption : String)
  | sendPhotoStream (chatId : Int) (path : String) (caption : String)
  | editMessageText (chatId : Int) (messageId : Nat) (text : String)
  | getFile (fileId : String)
  | download (url : String)
  | openaiEdit (prompt : String)
  | openaiGenerate (model : String) (prompt : String)
  | progressStart (chatId : Int) (text : String)
  | progressStop (chatId : Int)
  | cancelTimer
  | logError (context : String)
deriving Repr, DecidableEq

/-- TelegramSenderService.sendErrorMessage (telegramSender.ts lines 61-73):
log the raw error, then send the standardized user-facing message. -/
def sendErrorMessage (chatId : Int) (operation : String) (errMsg : String) : List Eff :=
  [Eff.logError ("Error " ++ operation),
   Eff.sendMessage chatId ("❌ Sorry, I couldn't " ++ operation ++ ". Error: " ++ errMsg)]

/-- 4 MiB in bytes.  The source compares `stats.size / (1024 * 1024) >= 4`;
IEEE-754 division by the power of two 2^20 is exact for any file size below
2^53, so the comparison is exactly `size >= 4 * 1024 * 1024` bytes. -/
def fourMiB : Nat := 4 * 1024 * 1024

def tmpdir : String := "/tmp"

def tempJpgPath (fileId : String) : String := tmpdir ++ "/" ++ fileId ++ ".jpg"

def tempOutputPath (fileId : String) : String := tmpdir ++ "/" ++ fileId ++ "_output.png"

def photoProgressText : String := "📸 Received your photo. Creating a variation..."

def tooLargeMsg : String := "Image is too large (must be less than 4MB)"

def noImageDataMsg : String := "No image data received from OpenAI"

def variationOp : String := "create a variation of your image"

/-- The OpenAI image result the handlers inspect: `result.data?.[0]` carrying
`b64_json`, carrying `url`, or carrying neither (also covers a missing array). -/
inductive ApiImage where
  | b64Json (data : String)
  | url (u : String)
  | missing
deriving Repr, DecidableEq

def Res.isOk : Res α → Bool
  | Res.ok _ => true
  | Res.err _ => false

/-- Environment of one handlePhotoWithCaption invocation: the outcomes of its
awaited calls, in program order (telegramBot.ts lines 91-198). -/
structure PhotoEnv where
  getFileResult : Res (Option String)
  axiosResult : Res Unit
  writeResult : Res Unit
  resizeResult : Res Unit
  resizedSize : Nat
  editResult : Res ApiImage
  sendPhotoResult : Res Unit
deriving Repr, DecidableEq

/-- The shared catch block of handlePhotoWithCaption (lines 189-197): stop the
loading animation, then sendErrorMessage. -/
def photoFail (chatId : Int) (msg : String) : List Eff :=
  Eff.progressStop chatId :: sendErrorMessage chatId variationOp msg

/-- Shallow embedding of TelegramBotService.handlePhotoWithCaption
(telegramBot.ts lines 91-198).  Returns the outbound effect trace and the
list of temporary files still existing on disk when the handler returns.
The download writes `/tmp/<fileId>.jpg`; the resize writes
`/tmp/<fileId>.jpg.resized` which is immediately renamed over the jpg; a
b64 result writes `/tmp/<fileId>_output.png`.  `fs.unlinkSync` calls appear
only on the success path (lines 175 and 188). -/
def handlePhotoWithCaption (botToken : String) (chatId : Int)
    (photo : List PhotoSize) (caption : String) (env : PhotoEnv) :
    List Eff × List String :=
  let start := Eff.progressStart chatId photoProgressText
  match photo.getLast? with
  | none =>
    -- JS: photo[photo.length - 1] is undefined, so reading .file_id throws.
    (start :: photoFail chatId "Cannot read properties of undefined", [])
  | some lastPhoto =>
    let fileId := lastPhoto.file_id
    let jpg := tempJpgPath fileId
    let t0 := [start, Eff.getFile fileId]
    match env.getFileResult with
    | Res.err m => (t0 ++ photoFail chatId m, [])
    | Res.ok none => (t0 ++ photoFail chatId "Could not get file path", [])
    | Res.ok (some filePath) =>
      let t1 := t0 ++ [Eff.download ("https://api.telegram.org/file/bot" ++ botToken ++ "/" ++ filePath)]
      match env.axiosResult with
      | Res.err m => (t1 ++ photoFail chatId m, [])
      | Res.ok _ =>
        match env.writeResult with
        | Res.err m => (t1 ++ photoFail chatId m, [jpg])
        | Res.ok _ =>
          match env.resizeResult with
          | Res.err m => (t1 ++ photoFail chatId m, [jpg])
          | Res.ok _ =>
            if fourMiB ≤ env.resizedSize then
              (t1 ++ photoFail chatId tooLargeMsg, [jpg])
            else
              let t2 := t1 ++ [Eff.openaiEdit caption]
              match env.editResult with
              | Res.err m => (t2 ++ photoFail chatId m, [jpg])
              | Res.ok img =>
                let t3 := t2 ++ [Eff.progressStop chatId]
                match img with
                | ApiImage.b64Json _ =>
                  let out := tempOutputPath fileId
                  let t4 := t3 ++ [Eff.sendPhotoStream chatId out ("prompt: " ++ "\"" ++ caption ++ "\"")]
                  match env.sendPhotoResult with
                  | Res.err m => (t4 ++ photoFail chatId m, [jpg, out])
                  | Res.ok _ => (t4, [])
                | ApiImage.url u =>
                  let t4 := t3 ++ [Eff.sendPhotoUrl chatId u ("prompt: " ++ "\"" ++ caption ++ "\"")]
                  match env.sendPhotoResult with
                  | Res.err m => (t4 ++ photoFail chatId m, [jpg])
                  | Res.ok _ => (t4, [])
                | ApiImage.missing =>
                  (t3 ++ photoFail chatId noImageDataMsg, [jpg])

/-- Environment of one /image1 or /dalle3 invocation. -/
structure GenEnv where
  generateResult : Res ApiImage
  sendPhotoResult : Res Unit
  nowMillis : Nat
deriving Repr, DecidableEq

/-- The shared catch block of the generation handlers (telegramBot.ts lines
270-278 and 331-339). -/
def genFail (chatId : Int) (msg : String) : List Eff :=
  Eff.progressStop chatId :: sendErrorMessage chatId "generate the image" msg

def image1Usage : String := "⚠️ Please provide a prompt after /image1"

def dalle3Usage : String := "⚠️ Please provide a prompt after /dalle3"

/-- Shallow embedding of TelegramBotService.handleImage1Command
(telegramBot.ts lines 208-279). -/
def handleImage1Command (chatId : Int) (text : String) (env : GenEnv) : List Eff :=
  let prompt := jsTrim (jsSubstring text ("/image1".length))
  if prompt = "" then
    [Eff.sendMessage chatId image1Usage]
  else
    let t0 := [Eff.progressStart chatId ("🎨 Generating image using image-1 with prompt: " ++ "\"" ++ prompt ++ "\""),
               Eff.openaiGenerate "gpt-image-1" prompt]
    match env.generateResult with
    | Res.err m => t0 ++ genFail chatId m
    | Res.ok img =>
      let t1 := t0 ++ [Eff.progressStop chatId]
      match img with
      | ApiImage.b64Json _ =>
        let tempPath := tmpdir ++ "/" ++ toString env.nowMillis ++ ".png"
        let t2 := t1 ++ [Eff.sendPhotoStream chatId tempPath ("Here's your image-1 image for: " ++ "\"" ++ prompt ++ "\"")]
        match env.sendPhotoResult with
        | Res.err m => t2 ++ genFail chatId m
        | Res.ok _ => t2
      | ApiImage.url u =>
        let t2 := t1 ++ [Eff.sendPhotoUrl chatId u ("Here's your image-1 image for: " ++ "\"" ++ prompt ++ "\"")]
        match env.sendPhotoResult with
        | Res.err m => t2 ++ genFail chatId m
        | Res.ok _ => t2
      | ApiImage.missing => t1 ++ genFail chatId noImageDataMsg

/-- Shallow embedding of TelegramBotService.handleDalle3Command
(telegramBot.ts lines 289-340): reads `response.data?.[0]?.url` only, so a
b64 or missing result both throw "No image URL received from OpenAI". -/
def handleDalle3Command (chatId : Int) (text : String) (env : GenEnv) : List Eff :=
  let prompt := jsTrim (jsSubstring text ("/dalle3".length))
  if prompt = "" then
    [Eff.sendMessage chatId dalle3Usage]
  else
    let t0 := [Eff.progressStart chatId ("🖼️ Generating image using dalle-3 with prompt: " ++ "\"" ++ prompt ++ "\""),
               Eff.openaiGenerate "dall-e-3" prompt]
    match env.generateResult with
    | Res.err m => t0 ++ genFail chatId m
    | Res.ok img =>
      let t1 := t0 ++ [Eff.progressStop chatId]
      match img with
      | ApiImage.url u =>
        let t2 := t1 ++ [Eff.sendPhotoUrl chatId u ("Here's your dalle3 image for: " ++ "\"" ++ prompt ++ "\"")]
        match env.sendPhotoResult with
        | Res.err m => t2 ++ genFail chatId m
        | Res.ok _ => t2
      | _ => t1 ++ genFail chatId "No image URL received from OpenAI"

/-- Environment of one handleMessage invocation: the clock rendering
`new Date().toLocaleString()` and the sub-environments of the two handler
families. -/
structure Env where
  timeString : String
  photoEnv : PhotoEnv
  genEnv : GenEnv
deriving Repr, DecidableEq

/-- The unrecognized-command reply (telegramBot.ts lines 77-78):
`(text || "your message")` substitutes the placeholder for an absent or
empty (falsy) text. -/
def unrecognizedReply (text : Option String) : String :=
  "⚠️ Sorry, " ++ "\"" ++ (if truthyStr text then text.getD "" else "your message") ++
    "\" is not a recognized command."

/-- The body of TelegramBotService.handleMessage after the `message`
destructuring (telegramBot.ts lines 62-80): the if/else dispatch chain. -/
def handleMsg (botToken : String) (m : ChatMessage) (env : Env) : List Eff :=
  if truthyArr m.photo && truthyStr m.caption then
    (handlePhotoWithCaption botToken m.chatId (m.photo.getD []) (m.caption.getD "") env.photoEnv).1
  else if truthyStr m.text && jsStartsWith (m.text.getD "") "/image1" then
    handleImage1Command m.chatId (m.text.getD "") env.genEnv
  else if truthyStr m.text && jsStartsWith (m.text.getD "") "/dalle3" then
    handleDalle3Command m.chatId (m.text.getD "") env.genEnv
  else if truthyStr m.text && m.text.getD "" == "/test" then
    [Eff.sendMessage m.chatId "Test OK"]
  else if truthyStr m.text && m.text.getD "" == "/time" then
    [Eff.sendMessage m.chatId ("Current time: " ++ env.timeString)]
  else
    [Eff.sendMessage m.chatId (unrecognizedReply m.text)]

/-- Shallow embedding of TelegramBotService.handleMessage
(telegramBot.ts lines 59-81): `if (!body.message) return;` then dispatch. -/
def handleMessage (botToken : String) (body : TelegramMessageBody) (env : Env) : List Eff :=
  match body.message with
  | none => []
  | some m => handleMsg botToken m env

/-- The fields TelegramBotService's constructor sets (telegramBot.ts lines
47-52); no method ever assigns them again. -/
structure ServiceState where
  botToken : String
  openaiApiKey : String
deriving Repr, DecidableEq

/-- handleMessage as a state transformer on the service: it reads
`this.botToken` and never writes any field, so the state after a call is the
state before it. -/
def handleMessageS (s : ServiceState) (body : TelegramMessageBody) (env : Env) :
    ServiceState × List Eff :=
  (s, handleMessage s.botToken body env)

/-! ## Progress indicator (telegramSender.ts lines 84-120) -/

/-- The fixed cyclic sequence of eight phase glyphs (telegramSender.ts line 85). -/
def loadingIcons : List String := ["🌑", "🌒", "🌓", "🌔", "🌕", "🌖", "🌗", "🌘"]

/-- The mutable state one sendProgressMessage call closes over: the chat, the
identifier of the message it sent, the caller-supplied text, and
`currentIconIndex`. -/
structure ProgressState where
  chatId : Int
  messageId : Nat
  text : String
  currentIconIndex : Nat
deriving Repr, DecidableEq

/-- Start of sendProgressMessage (lines 88-95): send the initial status message
showing icon 0 and record the returned message identifier. -/
def progressInit (chatId : Int) (messageId : Nat) (text : String) : ProgressState × Eff :=
  (⟨chatId, messageId, text, 0⟩,
   Eff.sendMessage chatId (text ++ " " ++ loadingIcons.getD 0 ""))

/-- One firing of the 2-second interval (lines 98-107): advance the icon index
with wraparound and edit the message in place. -/
def progressTick (st : ProgressState) : ProgressState × Eff :=
  let i := (st.currentIconIndex + 1) % loadingIcons.length
  ({st with currentIconIndex := i},
   Eff.editMessageText st.chatId st.messageId (st.text ++ " " ++ loadingIcons.getD i ""))

/-- The returned stop function (lines 110-119): cancel the interval, then one
final edit replacing the glyph with the completion mark. -/
def progressStopEffs (st : ProgressState) : List Eff :=
  [Eff.cancelTimer,
   Eff.editMessageText st.chatId st.messageId (st.text ++ " ✅")]

/-- The state after `n` firings of the interval timer. -/
def ticksN : Nat → ProgressState → ProgressState
  | 0, st => st
  | Nat.succ n, st => (progressTick (ticksN n st)).1

/-- The status text currently shown for a progress state. -/
def statusText (st : ProgressState) : String :=
  st.text ++ " " ++ loadingIcons.getD st.currentIconIndex ""

/-! ## Router classification -/

/-- The derived command classification of spec section 3. -/
inductive Route where
  | photoEdit
  | image1
  | dalle3
  | testCmd
  | timeCmd
  | unrecognized
deriving Repr, DecidableEq

/-- The classification the handleMessage dispatch chain performs, read off the
conditions of telegramBot.ts lines 64-76 (JS truthiness included). -/
def route (m : ChatMessage) : Route :=
  if truthyArr m.photo && truthyStr m.caption then Route.photoEdit
  else if truthyStr m.text && jsStartsWith (m.text.getD "") "/image1" then Route.image1
  else if truthyStr m.text && jsStartsWith (m.text.getD "") "/dalle3" then Route.dalle3
  else if truthyStr m.text && m.text.getD "" == "/test" then Route.testCmd
  else if truthyStr m.text && m.text.getD "" == "/time" then Route.timeCmd
  else Route.unrecognized

/-- The routing rule exactly as claim C4 words it: "photo+caption" means both
fields are present (an empty-string caption still is a caption), prefix and
equality tests on the text, unrecognized otherwise. -/
def routeSpecClaim (m : ChatMessage) : Route :=
  match m.photo, m.caption with
  | some _, some _ => Route.photoEdit
  | _, _ =>
    match m.text with
    | none => Route.unrecognized
    | some t =>
      if jsStartsWith t "/image1" then Route.image1
      else if jsStartsWith t "/dalle3" then Route.dalle3
      else if t = "/test" then Route.testCmd
      else if t = "/time" then Route.timeCmd
      else Route.unrecognized

/-- The text part of the amended routing rule: an empty text is treated the
same as an absent one. -/
def routeTextAmended : Option String → Route
  | none => Route.unrecognized
  | some t =>
    if t = "" then Route.unrecognized
    else if jsStartsWith t "/image1" then Route.image1
    else if jsStartsWith t "/dalle3" then Route.dalle3
    else if t = "/test" then Route.testCmd
    else if t = "/time" then Route.timeCmd
    else Route.unrecognized

/-- The routing rule as amended: PhotoEdit needs a photo array plus a
non-empty caption; otherwise route on the text with the empty string treated
as absent. -/
def routeSpecAmended (m : ChatMessage) : Route :=
  match m.photo, m.caption with
  | some _, some c => if c = "" then routeTextAmended m.text else Route.photoEdit
  | _, _ => routeTextAmended m.text

/-- What each classification makes the router do, read off the branch bodies
of telegramBot.ts lines 64-80. -/
def dispatch (botToken : String) (r : Route) (m : ChatMessage) (env : Env) : List Eff :=
  match r with
  | Route.photoEdit =>
    (handlePhotoWithCaption botToken m.chatId (m.photo.getD []) (m.caption.getD "") env.photoEnv).1
  | Route.image1 => handleImage1Command m.chatId (m.text.getD "") env.genEnv
  | Route.dalle3 => handleDalle3Command m.chatId (m.text.getD "") env.genEnv
  | Route.testCmd => [Eff.sendMessage m.chatId "Test OK"]
  | Route.timeCmd => [Eff.sendMessage m.chatId ("Current time: " ++ env.timeString)]
  | Route.unrecognized => [Eff.sendMessage m.chatId (unrecognizedReply m.text)]

/-! ## Trace observations -/

def isStop : Eff → Bool
  | Eff.progressStop _ => true
  | _ => false

/-- How many times the progress indicator's finalize function runs in a trace. -/
def countStops (t : List Eff) : Nat := (t.filter isStop).length

def isStart : Eff → Bool
  | Eff.progressStart _ _ => true
  | _ => false

def countStarts (t : List Eff) : Nat := (t.filter isStart).length

def hasEdit (t : List Eff) : Bool :=
  t.any fun e => match e with | Eff.openaiEdit _ => true | _ => false

def hasGenerate (t : List Eff) : Bool :=
  t.any fun e => match e with | Eff.openaiGenerate _ _ => true | _ => false

/-- Character-list infix test. -/
def hasInfixChars (pat : List Char) : List Char → Bool
  | [] => isPrefChars pat []
  | c :: rest => isPrefChars pat (c :: rest) || hasInfixChars pat rest

/-- Substring containment over the UTF-8 character sequences. -/
def strContains (s pat : String) : Bool := hasInfixChars pat.toList s.toList

/-! ## Predicates over the photo-handler environment -/

/-- The pipeline reaches the 4 MiB size check: file path resolved, download
streamed and written, sharp resize succeeded. -/
def photoReachesCheck (env : PhotoEnv) : Bool :=
  (match env.getFileResult with | Res.ok (some _) => true | _ => false) &&
  env.axiosResult.isOk && env.writeResult.isOk && env.resizeResult.isOk

/-- The pipeline passes the size check and calls the edit API. -/
def photoReachesEdit (env : PhotoEnv) : Bool :=
  photoReachesCheck env && decide (env.resizedSize < fourMiB)

/-- The generation call resolved but a step after the first stopLoading()
throws: no usable image data, or sending the result fails. -/
def afterStopFails : Res ApiImage → Res Unit → Bool
  | Res.ok ApiImage.missing, _ => true
  | Res.ok _, Res.err _ => true
  | _, _ => false

/-- The photo handler runs stopLoading() twice: once on line 154 after the
edit call resolves, once more in the catch block (line 191). -/
def photoDoubleStop (env : PhotoEnv) : Bool :=
  photoReachesEdit env && afterStopFails env.editResult env.sendPhotoResult

/-- Same situation for handleImage1Command (lines 237 and 272). -/
def genDoubleStop (env : GenEnv) : Bool :=
  afterStopFails env.generateResult env.sendPhotoResult

/-- handleDalle3Command uses the url field only, so any non-url result after a
resolved generate call throws past the first stopLoading() (lines 318, 333). -/
def dalleAfterStopFails : Res ApiImage → Res Unit → Bool
  | Res.ok (ApiImage.url _), Res.ok _ => false
  | Res.ok (ApiImage.url _), Res.err _ => true
  | Res.ok _, _ => true
  | Res.err _, _ => false

def dalleDoubleStop (env : GenEnv) : Bool :=
  dalleAfterStopFails env.generateResult env.sendPhotoResult

/-- The download stage wrote the temp jpg: file path resolved, the axios
request resolved, and the stream finished writing. -/
def photoDownloadWritten (env : PhotoEnv) : Bool :=
  (match env.getFileResult with | Res.ok (some _) => true | _ => false) &&
  env.axiosResult.isOk && env.writeResult.isOk

/-- The photo pipeline completes every step: then and only then do the
`unlinkSync` calls on the success path run. -/
def photoFullSuccess (env : PhotoEnv) : Bool :=
  photoReachesEdit env &&
  (match env.editResult with
   | Res.ok (ApiImage.b64Json _) => true
   | Res.ok (ApiImage.url _) => true
   | _ => false) &&
  env.sendPhotoResult.isOk

/-! ## The deployed entry point (src/functions/bot/src/index.ts)

The inline `botfunction` handler: everything runs inside one try/catch whose
catch only logs, and `response.send("OK")` stands after the catch — except
that the two empty-prompt branches `return` from the whole callback (lines
126 and 173), skipping it.  The Boolean in the result records whether
`response.send("OK")` ran. -/

namespace IndexFn

/-- Environment of one webhook invocation of index.ts: the two secrets, the
clock rendering, and the outcomes of the awaited calls in program order. -/
structure IndexEnv where
  botToken : Option String
  openaiApiKey : Option String
  timeString : String
  getFileResult : Res (Option String)
  axiosResult : Res Unit
  writeResult : Res Unit
  convertResult : Res Unit
  pngSize : Nat
  editResult : Res (Option String)
  generateResult : Res (Option String)
deriving Repr, DecidableEq

/-- The photo-variation error text of index.ts lines 110-111; the source glues
"create a" to "variation" with no space between the two string literals. -/
def variationErrText (msg : String) : String :=
  "❌ Sorry, I couldn't create a" ++ "variation of your image. Error: " ++ msg

def genErrText (msg : String) : String :=
  "❌ Sorry, I couldn't generate the image. Error: " ++ msg

/-- The photo+caption branch of index.ts (lines 30-116): no progress
indicator, conversion to PNG, size check on the PNG, url-only result. -/
def photoBranch (token : String) (id : Int) (photo : List PhotoSize)
    (caption : String) (env : IndexEnv) : List Eff :=
  let intro := Eff.sendMessage id "📸 Received your photo. Creating a variation..."
  let fail := fun m =>
    [Eff.logError "Error creating image variation:", Eff.sendMessage id (variationErrText m)]
  match photo.getLast? with
  | none => intro :: fail "Cannot read properties of undefined"
  | some p =>
    let t0 := [intro, Eff.getFile p.file_id]
    match env.getFileResult with
    | Res.err m => t0 ++ fail m
    | Res.ok none => t0 ++ fail "Could not get file path"
    | Res.ok (some fp) =>
      let t1 := t0 ++ [Eff.download ("https://api.telegram.org/file/bot" ++ token ++ "/" ++ fp)]
      match env.axiosResult with
      | Res.err m => t1 ++ fail m
      | Res.ok _ =>
        match env.writeResult with
        | Res.err m => t1 ++ fail m
        | Res.ok _ =>
          match env.convertResult with
          | Res.err m => t1 ++ fail m
          | Res.ok _ =>
            if fourMiB ≤ env.pngSize then t1 ++ fail tooLargeMsg
            else
              let t2 := t1 ++ [Eff.openaiEdit caption]
              match env.editResult with
              | Res.err m => t2 ++ fail m
              | Res.ok none => t2 ++ fail "No image URL received from OpenAI"
              | Res.ok (some u) =>
                t2 ++ [Eff.sendPhotoUrl id u
                  ("Here's a variation of your image with the caption: " ++ "\"" ++ caption ++ "\"")]

/-- The /image1 branch of index.ts (lines 117-163).  The Boolean records
whether control falls through to `response.send("OK")`: the empty-prompt
branch returns from the whole callback instead (line 126). -/
def image1Branch (id : Int) (text : String) (env : IndexEnv) : List Eff × Bool :=
  let prompt := jsTrim (jsSubstring text ("/image1".length))
  if prompt = "" then
    ([Eff.sendMessage id "⚠️ Please provide a prompt after /image1"], false)
  else
    let t0 := [Eff.sendMessage id ("🎨 Generating image using image-1 with prompt: " ++ "\"" ++ prompt ++ "\"..."),
               Eff.openaiGenerate "gpt-image-1" prompt]
    match env.generateResult with
    | Res.err m =>
      (t0 ++ [Eff.logError "Error generating image:", Eff.sendMessage id (genErrText m)], true)
    | Res.ok none =>
      (t0 ++ [Eff.logError "Error generating image:",
              Eff.sendMessage id (genErrText "No image URL received from OpenAI")], true)
    | Res.ok (some u) =>
      (t0 ++ [Eff.sendPhotoUrl id u ("Here's your image-1 image for: " ++ "\"" ++ prompt ++ "\"")], true)

/-- The /dalle3 branch of index.ts (lines 164-210), same early-return shape
(line 173). -/
def dalle3Branch (id : Int) (text : String) (env : IndexEnv) : List Eff × Bool :=
  let prompt := jsTrim (jsSubstring text ("/dalle3".length))
  if prompt = "" then
    ([Eff.sendMessage id "⚠️ Please provide a prompt after /dalle3"], false)
  else
    let t0 := [Eff.sendMessage id ("🖼️ Generating image using dalle-3 with prompt: " ++ "\"" ++ prompt ++ "\"..."),
               Eff.openaiGenerate "dall-e-3" prompt]
    match env.generateResult with
    | Res.err m =>
      (t0 ++ [Eff.logError "Error generating image:", Eff.sendMessage id (genErrText m)], true)
    | Res.ok none =>
      (t0 ++ [Eff.logError "Error generating image:",
              Eff.sendMessage id (genErrText "No image URL received from OpenAI")], true)
    | Res.ok (some u) =>
      (t0 ++ [Eff.sendPhotoUrl id u ("Here's your dalle3 image for: " ++ "\"" ++ prompt ++ "\"")], true)

/-- Shallow embedding of exports.botfunction (index.ts lines 10-234).  The
trace is the outbound calls and log lines; the Boolean is whether
`response.send("OK")` (line 233) ran before the callback returned. -/
def botfunction (env : IndexEnv) (body : TelegramMessageBody) : List Eff × Bool :=
  match env.botToken with
  | none => ([Eff.logError "Error sending message"], true)
  | some token =>
    match env.openaiApiKey with
    | none => ([Eff.logError "Error sending message"], true)
    | some _ =>
      match body.message with
      | none => ([], true)
      | some m =>
        if truthyArr m.photo && truthyStr m.caption then
          (photoBranch token m.chatId (m.photo.getD []) (m.caption.getD "") env, true)
        else if truthyStr m.text && jsStartsWith (m.text.getD "") "/image1" then
          image1Branch m.chatId (m.text.getD "") env
        else if truthyStr m.text && jsStartsWith (m.text.getD "") "/dalle3" then
          dalle3Branch m.chatId (m.text.getD "") env
        else if truthyStr m.text && m.text.getD "" == "/test" then
          ([Eff.sendMessage m.chatId "Test OK"], true)
        else if truthyStr m.text && m.text.getD "" == "/time" then
          ([Eff.sendMessage m.chatId ("Current time: " ++ env.timeString)], true)
        else
          ([Eff.sendMessage m.chatId (unrecognizedReply m.text)], true)

end IndexFn

/-! ## Concrete environments for witnesses and counterexamples -/

/-- A photo environment in which every external call succeeds and the edit
call returns a url result. -/
def okPhotoEnv : PhotoEnv :=
  ⟨Res.ok (some "photos/file_1.jpg"), Res.ok (), Res.ok (), Res.ok (), 1000,
   Res.ok (ApiImage.url "https://img.example/out.png"), Res.ok ()⟩

/-- A generation environment in which every external call succeeds. -/
def okGenEnv : GenEnv := ⟨Res.ok (ApiImage.url "https://img.example/out.png"), Res.ok (), 17⟩

/-- A full router environment with the given clock rendering. -/
def envAt (ts : String) : Env := ⟨ts, okPhotoEnv, okGenEnv⟩

/-- Every step up to the edit call succeeds, but `result.data?.[0]` carries
neither b64_json nor url. -/
def noDataPhotoEnv : PhotoEnv :=
  ⟨Res.ok (some "photos/file_1.jpg"), Res.ok (), Res.ok (), Res.ok (), 1000,
   Res.ok ApiImage.missing, Res.ok ()⟩

/-- Download and resize succeed but the resized file holds exactly 4 MiB. -/
def tooLargePhotoEnv : PhotoEnv :=
  ⟨Res.ok (some "photos/file_1.jpg"), Res.ok (), Res.ok (), Res.ok (), 4 * 1024 * 1024,
   Res.ok (ApiImage.url "https://img.example/out.png"), Res.ok ()⟩

/-- The entry-point environment with both secrets set and every external call
succeeding. -/
def fullIndexEnv : IndexFn.IndexEnv :=
  ⟨some "tok", some "key", "now", Res.ok (some "photos/file_1.jpg"), Res.ok (), Res.ok (),
   Res.ok (), 0, Res.ok (some "https://img.example/out.png"), Res.ok (some "https://img.example/out.png")⟩

/-! ## Shared counting lemmas -/

theorem countStops_append (a b : List Eff) :
    countStops (a ++ b) = countStops a + countStops b := by
  simp [countStops, List.filter_append]

theorem countStops_photoFail (c : Int) (m : String) : countStops (photoFail c m) = 1 := rfl

theorem countStops_genFail (c : Int) (m : String) : countStops (genFail c m) = 1 := rfl

/-! ## Progress indicator lemmas -/

theorem ticksN_fields (n : Nat) (st : ProgressState) :
    (ticksN n st).chatId = st.chatId ∧ (ticksN n st).messageId = st.messageId ∧
      (ticksN n st).text = st.text := by
  induction n with
  | zero => exact ⟨rfl, rfl, rfl⟩
  | succ n ih => simpa [ticksN, progressTick] using ih

theorem ticksN_idx (n : Nat) (st : ProgressState) (h : st.currentIconIndex = 0) :
    (ticksN n st).currentIconIndex = n % 8 := by
  induction n with
  | zero => simpa [ticksN] using h
  | succ n ih =>
    have hlen : loadingIcons.length = 8 := rfl
    simp only [ticksN, progressTick, hlen]
    omega

end Bot

namespace Bot

example : handleMessage "t" ⟨none⟩ (envAt "x") = [] := by decide

example : strContains "Image is too large (must be less than 4MB)" "too large" = true := by decide

example : countStops (handlePhotoWithCaption "t" 1 [⟨"f"⟩] "c" noDataPhotoEnv).1 = 2 := by decide

example : (handlePhotoWithCaption "t" 1 [⟨"f"⟩] "c" tooLargePhotoEnv).2 = ["/tmp/f.jpg"] := by decide

example : (IndexFn.botfunction ⟨some "t", some "k", "now", Res.ok (some "p"), Res.ok (), Res.ok (), Res.ok (), 0, Res.ok (some "u"), Res.ok (some "u")⟩ ⟨some ⟨1, some "/image1", none, none⟩⟩).2 = false := by decide

/-- C9: while Running, the status text after n timer ticks is the caller text
followed by glyph number (n mod 8) of the fixed eight-glyph cycle; the initial
message uses glyph 0; after eight ticks the glyph is back to the initial one;
and stopping cancels the timer and performs one final edit replacing the glyph
with the completion mark. -/
theorem bot_c9_progress (c : Int) (mid : Nat) (t : String) (n : Nat) :
    loadingIcons.length = 8
    ∧ (progressInit c mid t).2 = Eff.sendMessage c (t ++ " " ++ loadingIcons.getD 0 "")
    ∧ statusText (ticksN n (progressInit c mid t).1) = t ++ " " ++ loadingIcons.getD (n % 8) ""
    ∧ statusText (ticksN 8 (progressInit c mid t).1) = statusText (progressInit c mid t).1
    ∧ (progressTick (ticksN n (progressInit c mid t).1)).2
        = Eff.editMessageText c mid (t ++ " " ++ loadingIcons.getD ((n + 1) % 8) "")
    ∧ progressStopEffs (ticksN n (progressInit c mid t).1)
        = [Eff.cancelTimer, Eff.editMessageText c mid (t ++ " ✅")] := by
  have hfields := ticksN_fields n (progressInit c mid t).1
  have hfields8 := ticksN_fields 8 (progressInit c mid t).1
  have hidx := ticksN_idx n (progressInit c mid t).1 rfl
  have hidx8 := ticksN_idx 8 (progressInit c mid t).1 rfl
  simp only [progressInit] at hfields hfields8 hidx hidx8
  refine ⟨rfl, rfl, ?_, ?_, ?_, ?_⟩
  · simp [statusText, progressInit, hidx, hfields.2.2]
  · simp [statusText, progressInit, hidx8, hfields8.2.2]
  · have hlen : loadingIcons.length = 8 := rfl
    simp only [progressTick, progressInit, hidx, hlen, hfields.1, hfields.2.1, hfields.2.2]
    simp [Nat.add_mod_left]
  · simp [progressStopEffs, progressInit, hfields.1, hfields.2.1, hfields.2.2]

/-- C7: an inbound event with no message field produces no outbound effect at
all, and leaves the service state unchanged. -/
theorem bot_c7_no_message (tok : String) (env : Env) (s : ServiceState) :
    handleMessage tok ⟨none⟩ env = [] ∧ handleMessageS s ⟨none⟩ env = (s, []) :=
  ⟨rfl, rfl⟩

/-- C8 (amended): the service keeps no cross-call state — a call returns the
state unchanged, and re-invoking with the same event under the same external
environment (clock rendering and remote responses) yields the identical
outbound sequence.  Across real runs the clock advances, so /time differs
(see the counterexample). -/
theorem bot_c8_stateless (s : ServiceState) (body : TelegramMessageBody) (env : Env) :
    (handleMessageS s body env).1 = s
    ∧ (handleMessageS (handleMessageS s body env).1 body env).2 = (handleMessageS s body env).2 :=
  ⟨rfl, rfl⟩

/-- C8 counterexample: two invocations of the router with the same /time event
at clock readings two seconds apart produce different outbound sequences, so
the sequences are not identical across runs for the /time shape. -/
theorem bot_c8_time_cex :
    (handleMessageS ⟨"tok", "key"⟩ ⟨some ⟨1, some "/time", none, none⟩⟩
        (envAt "5/10/2025, 10:00:00 AM")).2
      ≠ (handleMessageS ⟨"tok", "key"⟩ ⟨some ⟨1, some "/time", none, none⟩⟩
        (envAt "5/10/2025, 10:00:02 AM")).2 := by decide

/-- C10: a message whose text is the empty string (and that does not route to
the photo branch) gets the unrecognized-command reply with the placeholder
"your message" in place of the quoted text, because the empty string is falsy
in `(text || "your message")`. -/
theorem bot_c10_empty_text (tok : String) (cid : Int) (photo : Option (List PhotoSize))
    (caption : Option String) (env : Env)
    (h : (truthyArr photo && truthyStr caption) = false) :
    handleMsg tok ⟨cid, some "", photo, caption⟩ env
      = [Eff.sendMessage cid (unrecognizedReply (some ""))]
    ∧ unrecognizedReply (some "")
      = "⚠️ Sorry, " ++ "\"" ++ "your message" ++ "\" is not a recognized command." := by
  constructor
  · cases photo with
    | none => cases caption <;> simp [handleMsg, truthyArr, truthyStr]
    | some l =>
      cases caption with
      | none => simp [handleMsg, truthyArr, truthyStr]
      | some cap =>
        have hc : cap = "" := by simpa [truthyArr, truthyStr] using h
        subst hc
        simp [handleMsg, truthyArr, truthyStr]
  · decide

/-- C10 witness at a concrete event. -/
theorem bot_c10_empty_text_witness :
    (truthyArr none && truthyStr none) = false
    ∧ (handleMsg "tok" ⟨5, some "", none, none⟩ (envAt "now")
        = [Eff.sendMessage 5 (unrecognizedReply (some ""))]
      ∧ unrecognizedReply (some "")
        = "⚠️ Sorry, " ++ "\"" ++ "your message" ++ "\" is not a recognized command.") :=
  ⟨by decide, bot_c10_empty_text "tok" 5 none none (envAt "now") (by decide)⟩

/-- C5: a /image1 or /dalle3 text whose remainder after the command prefix
trims to nothing makes the handler reply with the usage warning only: no
generation call and no progress indicator. -/
theorem bot_c5_empty_prompt (cid : Int) (text : String) (env : GenEnv) :
    (jsTrim (jsSubstring text ("/image1".length)) = "" →
      handleImage1Command cid text env = [Eff.sendMessage cid image1Usage]
      ∧ hasGenerate (handleImage1Command cid text env) = false
      ∧ countStarts (handleImage1Command cid text env) = 0)
    ∧ (jsTrim (jsSubstring text ("/dalle3".length)) = "" →
      handleDalle3Command cid text env = [Eff.sendMessage cid dalle3Usage]
      ∧ hasGenerate (handleDalle3Command cid text env) = false
      ∧ countStarts (handleDalle3Command cid text env) = 0) := by
  constructor
  · intro h
    refine ⟨?_, ?_, ?_⟩ <;>
      simp [handleImage1Command, h, hasGenerate, countStarts, isStart, countStops]
  · intro h
    refine ⟨?_, ?_, ?_⟩ <;>
      simp [handleDalle3Command, h, hasGenerate, countStarts, isStart, countStops]

/-- C5 witness: `/image1` followed by three spaces, and bare `/dalle3`. -/
theorem bot_c5_empty_prompt_witness :
    (jsTrim (jsSubstring "/image1   " ("/image1".length)) = ""
      ∧ handleImage1Command 9 "/image1   " okGenEnv = [Eff.sendMessage 9 image1Usage])
    ∧ (jsTrim (jsSubstring "/dalle3" ("/dalle3".length)) = ""
      ∧ handleDalle3Command 9 "/dalle3" okGenEnv = [Eff.sendMessage 9 dalle3Usage]) :=
  ⟨⟨by decide, ((bot_c5_empty_prompt 9 "/image1   " okGenEnv).1 (by decide)).1⟩,
   ⟨by decide, ((bot_c5_empty_prompt 9 "/dalle3" okGenEnv).2 (by decide)).1⟩⟩

/-- C3 (code bug): the deployed entry point acknowledges with "OK" on the
ordinary paths — missing secrets, no message, full command flows — but the
empty-prompt branches of /image1 and /dalle3 `return` from the whole request
callback before `response.send("OK")` runs, so those invocations are never
acknowledged, against the documented always-acknowledge contract. -/
theorem bot_c3_ack_bug :
    (IndexFn.botfunction fullIndexEnv ⟨some ⟨1, some "/image1", none, none⟩⟩).2 = false
    ∧ (IndexFn.botfunction fullIndexEnv ⟨some ⟨1, some "/dalle3   ", none, none⟩⟩).2 = false
    ∧ (IndexFn.botfunction fullIndexEnv ⟨some ⟨1, some "/image1 a red fox", none, none⟩⟩).2 = true
    ∧ (IndexFn.botfunction fullIndexEnv ⟨some ⟨1, some "hello", none, none⟩⟩).2 = true
    ∧ (IndexFn.botfunction fullIndexEnv ⟨none⟩).2 = true
    ∧ (IndexFn.botfunction
        ⟨none, none, "now", Res.ok none, Res.ok (), Res.ok (), Res.ok (), 0, Res.ok none, Res.ok none⟩
        ⟨some ⟨1, some "/test", none, none⟩⟩).2 = true := by
  decide

/-- C1 counterexample: with every external call succeeding but the edit call
resolving with neither b64_json nor url, the photo handler runs stopLoading()
twice — once on line 154, once more in the catch block — so the finalize call
is not "exactly once" on this exit path. -/
theorem bot_c1_double_stop_cex :
    countStops (handlePhotoWithCaption "tok" 1 [⟨"f"⟩] "a cat" noDataPhotoEnv).1 = 2
    ∧ countStops (handlePhotoWithCaption "tok" 1 [⟨"f"⟩] "a cat" noDataPhotoEnv).1 ≠ 1 := by
  decide

/-- C1 (amended): each of the three indicator-using handlers finalizes the
indicator at least once on every exit path, and exactly once unless the
generation call resolved and a later step threw (no usable image data, or the
result send failed), in which case the finalize function runs twice. -/
theorem bot_c1_stop_count :
    (∀ tok cid ps p cap env,
      countStops (handlePhotoWithCaption tok cid (ps ++ [p]) cap env).1
        = if photoDoubleStop env then 2 else 1)
    ∧ (∀ cid text env, jsTrim (jsSubstring text ("/image1".length)) ≠ "" →
      countStops (handleImage1Command cid text env) = if genDoubleStop env then 2 else 1)
    ∧ (∀ cid text env, jsTrim (jsSubstring text ("/dalle3".length)) ≠ "" →
      countStops (handleDalle3Command cid text env) = if dalleDoubleStop env then 2 else 1) := by
  refine ⟨?_, ?_, ?_⟩
  · intro tok cid ps p cap env
    obtain ⟨gf, ax, wr, rz, sz, ed, sp⟩ := env
    by_cases hsz : fourMiB ≤ sz
    · have hlt : ¬ sz < fourMiB := by omega
      rcases gf with (_ | fp) | m1 <;> rcases ax with u1 | m2 <;> rcases wr with u2 | m3 <;>
        rcases rz with u3 | m4 <;> rcases ed with (d | u | _) | m5 <;> rcases sp with u4 | m6 <;>
        simp [handlePhotoWithCaption, List.getLast?_concat, countStops_append, photoFail,
              sendErrorMessage, photoDoubleStop, photoReachesEdit, photoReachesCheck,
              afterStopFails, Res.isOk, countStops, isStop, hsz, hlt]
    · have hlt : sz < fourMiB := by omega
      rcases gf with (_ | fp) | m1 <;> rcases ax with u1 | m2 <;> rcases wr with u2 | m3 <;>
        rcases rz with u3 | m4 <;> rcases ed with (d | u | _) | m5 <;> rcases sp with u4 | m6 <;>
        simp [handlePhotoWithCaption, List.getLast?_concat, countStops_append, photoFail,
              sendErrorMessage, photoDoubleStop, photoReachesEdit, photoReachesCheck,
              afterStopFails, Res.isOk, countStops, isStop, hsz, hlt]
  · intro cid text env h
    obtain ⟨gen, sp, now⟩ := env
    rcases gen with (d | u | _) | m1 <;> rcases sp with u1 | m2 <;>
      simp [handleImage1Command, h, countStops_append, genFail, sendErrorMessage,
            genDoubleStop, afterStopFails, countStops, isStop]
  · intro cid text env h
    obtain ⟨gen, sp, now⟩ := env
    rcases gen with (d | u | _) | m1 <;> rcases sp with u1 | m2 <;>
      simp [handleDalle3Command, h, countStops_append, genFail, sendErrorMessage,
            dalleDoubleStop, dalleAfterStopFails, countStops, isStop]

/-- C2 counterexample: on the too-large abort path the handler returns with
the downloaded-and-resized temp jpg still on disk — the catch block contains
no unlink call, so the file is leaked on this failure path. -/
theorem bot_c2_leak_cex :
    (handlePhotoWithCaption "tok" 1 [⟨"f"⟩] "a cat" tooLargePhotoEnv).2 = [tempJpgPath "f"]
    ∧ (handlePhotoWithCaption "tok" 1 [⟨"f"⟩] "a cat" tooLargePhotoEnv).2 ≠ [] := by
  decide

/-- C2 (amended): all temporary files are removed before return on the full
success path; on every failure path after the download wrote the file —
resize failure, size-check abort, edit-API error, no-image-data, and
result-send failure — the temp jpg remains on disk, and when the send of the
decoded b64 result fails the output file remains as well. -/
theorem bot_c2_temp_files :
    (∀ tok cid photo cap env, photoFullSuccess env = true →
      (handlePhotoWithCaption tok cid photo cap env).2 = [])
    ∧ (∀ tok cid ps p cap env, photoDownloadWritten env = true → env.resizeResult.isOk = false →
      (handlePhotoWithCaption tok cid (ps ++ [p]) cap env).2 = [tempJpgPath p.file_id])
    ∧ (∀ tok cid ps p cap env, photoReachesCheck env = true → fourMiB ≤ env.resizedSize →
      (handlePhotoWithCaption tok cid (ps ++ [p]) cap env).2 = [tempJpgPath p.file_id])
    ∧ (∀ tok cid ps p cap env, photoReachesEdit env = true → env.editResult.isOk = false →
      (handlePhotoWithCaption tok cid (ps ++ [p]) cap env).2 = [tempJpgPath p.file_id])
    ∧ (∀ tok cid ps p cap env, photoReachesEdit env = true →
      env.editResult = Res.ok ApiImage.missing →
      (handlePhotoWithCaption tok cid (ps ++ [p]) cap env).2 = [tempJpgPath p.file_id])
    ∧ (∀ tok cid ps p cap env u, photoReachesEdit env = true →
      env.editResult = Res.ok (ApiImage.url u) → env.sendPhotoResult.isOk = false →
      (handlePhotoWithCaption tok cid (ps ++ [p]) cap env).2 = [tempJpgPath p.file_id])
    ∧ (∀ tok cid ps p cap env d, photoReachesEdit env = true →
      env.editResult = Res.ok (ApiImage.b64Json d) → env.sendPhotoResult.isOk = false →
      (handlePhotoWithCaption tok cid (ps ++ [p]) cap env).2
        = [tempJpgPath p.file_id, tempOutputPath p.file_id]) := by
  refine ⟨?_, ?_, ?_, ?_, ?_, ?_, ?_⟩
  · intro tok cid photo cap env h
    obtain ⟨gf, ax, wr, rz, sz, ed, sp⟩ := env
    have hns : ¬ fourMiB ≤ sz := by
      have h2 := h
      simp only [photoFullSuccess, photoReachesEdit, photoReachesCheck, Res.isOk,
                 Bool.and_eq_true, decide_eq_true_eq] at h2
      omega
    cases hl : photo.getLast? <;>
      rcases gf with (_ | fp) | m1 <;> rcases ax with u1 | m2 <;> rcases wr with u2 | m3 <;>
      rcases rz with u3 | m4 <;> rcases ed with (d | u | _) | m5 <;> rcases sp with u4 | m6 <;>
      simp_all [photoFullSuccess, photoReachesEdit, photoReachesCheck, afterStopFails,
                Res.isOk, handlePhotoWithCaption] <;>
      rw [if_neg (show ¬ fourMiB ≤ sz by omega)]
  · intro tok cid ps p cap env hdl hrz
    obtain ⟨gf, ax, wr, rz, sz, ed, sp⟩ := env
    rcases gf with (_ | fp) | m1 <;> rcases ax with u1 | m2 <;> rcases wr with u2 | m3 <;>
      rcases rz with u3 | m4 <;>
      simp_all [photoDownloadWritten, Res.isOk, handlePhotoWithCaption, List.getLast?_concat]
  · intro tok cid ps p cap env hreach hsz
    obtain ⟨gf, ax, wr, rz, sz, ed, sp⟩ := env
    rcases gf with (_ | fp) | m1 <;> rcases ax with u1 | m2 <;> rcases wr with u2 | m3 <;>
      rcases rz with u3 | m4 <;>
      simp_all [photoReachesCheck, Res.isOk, handlePhotoWithCaption, List.getLast?_concat]
  · intro tok cid ps p cap env hre hed
    obtain ⟨gf, ax, wr, rz, sz, ed, sp⟩ := env
    rcases gf with (_ | fp) | m1 <;> rcases ax with u1 | m2 <;> rcases wr with u2 | m3 <;>
      rcases rz with u3 | m4 <;> rcases ed with (d | u | _) | m5 <;>
      simp_all [photoReachesEdit, photoReachesCheck, Res.isOk, handlePhotoWithCaption,
                List.getLast?_concat] <;>
      rw [if_neg (show ¬ fourMiB ≤ sz by omega)]
  · intro tok cid ps p cap env hre hed
    obtain ⟨gf, ax, wr, rz, sz, ed, sp⟩ := env
    subst hed
    rcases gf with (_ | fp) | m1 <;> rcases ax with u1 | m2 <;> rcases wr with u2 | m3 <;>
      rcases rz with u3 | m4 <;>
      simp_all [photoReachesEdit, photoReachesCheck, Res.isOk, handlePhotoWithCaption,
                List.getLast?_concat] <;>
      rw [if_neg (show ¬ fourMiB ≤ sz by omega)]
  · intro tok cid ps p cap env u hre hed hsp
    obtain ⟨gf, ax, wr, rz, sz, ed, sp⟩ := env
    subst hed
    rcases gf with (_ | fp) | m1 <;> rcases ax with u1 | m2 <;> rcases wr with u2 | m3 <;>
      rcases rz with u3 | m4 <;> rcases sp with u4 | m6 <;>
      simp_all [photoReachesEdit, photoReachesCheck, Res.isOk, handlePhotoWithCaption,
                List.getLast?_concat] <;>
      rw [if_neg (show ¬ fourMiB ≤ sz by omega)]
  · intro tok cid ps p cap env d hre hed hsp
    obtain ⟨gf, ax, wr, rz, sz, ed, sp⟩ := env
    subst hed
    rcases gf with (_ | fp) | m1 <;> rcases ax with u1 | m2 <;> rcases wr with u2 | m3 <;>
      rcases rz with u3 | m4 <;> rcases sp with u4 | m6 <;>
      simp_all [photoReachesEdit, photoReachesCheck, Res.isOk, handlePhotoWithCaption,
                List.getLast?_concat] <;>
      rw [if_neg (show ¬ fourMiB ≤ sz by omega)]

/-- C4 counterexample: an event carrying a photo array and an (empty-string)
caption is not routed to PhotoEdit — `photo && caption` is falsy for an empty
caption, so the router falls through; with no text present it sends the
unrecognized-command reply instead. -/
theorem bot_c4_route_cex :
    routeSpecClaim ⟨1, none, some [⟨"f"⟩], some ""⟩ = Route.photoEdit
    ∧ route ⟨1, none, some [⟨"f"⟩], some ""⟩ = Route.unrecognized
    ∧ route ⟨1, none, some [⟨"f"⟩], some ""⟩ ≠ routeSpecClaim ⟨1, none, some [⟨"f"⟩], some ""⟩
    ∧ handleMsg "tok" ⟨1, none, some [⟨"f"⟩], some ""⟩ (envAt "now")
        = [Eff.sendMessage 1 (unrecognizedReply none)] := by
  decide

/-- C4 (amended): the dispatch follows the documented first-match priority
with presence read as JS truthiness — PhotoEdit needs a photo array plus a
non-empty caption, the text rules need a non-empty text (an empty text is
treated as absent, and the unrecognized reply then quotes the placeholder) —
and each classification invokes exactly the corresponding handler. -/
theorem bot_c4_routing :
    (∀ tok m env, handleMessage tok ⟨some m⟩ env = dispatch tok (route m) m env)
    ∧ (∀ m, route m = routeSpecAmended m) := by
  constructor
  · intro tok m env
    show handleMsg tok m env = dispatch tok (route m) m env
    unfold handleMsg route dispatch
    split_ifs <;> rfl
  · intro m
    rcases m with ⟨cid, text, photo, caption⟩
    rcases photo with _ | l <;> rcases caption with _ | c <;> rcases text with _ | t
    all_goals
      simp only [route, routeSpecAmended, routeTextAmended, truthyArr, truthyStr,
                 Option.getD, Bool.false_and, Bool.true_and, Bool.and_self,
                 if_false, Bool.false_eq_true]
    all_goals
      first
      | (by_cases hc : c = "" <;> by_cases ht : t = "" <;> simp [hc, ht, beq_iff_eq])
      | (by_cases ht : t = "" <;> simp [ht, beq_iff_eq])
      | (by_cases hc : c = "" <;> simp [hc, beq_iff_eq])

/-- C6: once the pipeline reaches the size check, a resized file of 4 MiB or
more aborts before any generation call — the indicator is stopped exactly
once and the standardized error message, whose text contains "too large", is
sent — while a smaller file leads to the edit call with the caption as
prompt. -/
theorem bot_c6_size_ceiling (tok : String) (cid : Int) (ps : List PhotoSize) (p : PhotoSize)
    (cap : String) (env : PhotoEnv) (hreach : photoReachesCheck env = true) :
    (fourMiB ≤ env.resizedSize →
      hasEdit (handlePhotoWithCaption tok cid (ps ++ [p]) cap env).1 = false
      ∧ countStops (handlePhotoWithCaption tok cid (ps ++ [p]) cap env).1 = 1
      ∧ Eff.sendMessage cid ("❌ Sorry, I couldn't " ++ variationOp ++ ". Error: " ++ tooLargeMsg)
          ∈ (handlePhotoWithCaption tok cid (ps ++ [p]) cap env).1
      ∧ strContains tooLargeMsg "too large" = true)
    ∧ (env.resizedSize < fourMiB →
      Eff.openaiEdit cap ∈ (handlePhotoWithCaption tok cid (ps ++ [p]) cap env).1) := by
  obtain ⟨gf, ax, wr, rz, sz, ed, sp⟩ := env
  constructor
  · intro hsz
    rcases gf with (_ | fp) | m1 <;> rcases ax with u1 | m2 <;> rcases wr with u2 | m3 <;>
      rcases rz with u3 | m4 <;>
      simp_all [photoReachesCheck, Res.isOk, handlePhotoWithCaption, List.getLast?_concat,
                photoFail, sendErrorMessage, hasEdit, countStops, isStop]
    decide
  · intro hsz
    rcases gf with (_ | fp) | m1 <;> rcases ax with u1 | m2 <;> rcases wr with u2 | m3 <;>
      rcases rz with u3 | m4 <;> rcases ed with (d | u | _) | m5 <;> rcases sp with u4 | m6 <;>
      simp_all [photoReachesCheck, Res.isOk, handlePhotoWithCaption, List.getLast?_concat,
                photoFail, sendErrorMessage] <;>
      rw [if_neg (show ¬ fourMiB ≤ sz by omega)] <;> simp

/-- C6 witness: the concrete 4 MiB environment aborts with one stop and no
edit call. -/
theorem bot_c6_size_ceiling_witness :
    photoReachesCheck tooLargePhotoEnv = true
    ∧ countStops (handlePhotoWithCaption "tok" 1 ([] ++ [⟨"f"⟩]) "a cat" tooLargePhotoEnv).1 = 1
    ∧ hasEdit (handlePhotoWithCaption "tok" 1 ([] ++ [⟨"f"⟩]) "a cat" tooLargePhotoEnv).1 = false :=
  ⟨by decide,
   ((bot_c6_size_ceiling "tok" 1 [] ⟨"f"⟩ "a cat" tooLargePhotoEnv (by decide)).1 (by decide)).2.1,
   ((bot_c6_size_ceiling "tok" 1 [] ⟨"f"⟩ "a cat" tooLargePhotoEnv (by decide)).1 (by decide)).1⟩

end Bot
